import Mathlib

/-!
Shallow embedding of a small multilingual intent-response chatbot
(single Python script) in the configuration where the optional external
libraries (langdetect, transformers, deep_translator) are unavailable:
language detection uses the heuristic fallback, intent classification is
rule-based unless a classifier is modelled explicitly, and translation
uses the built-in small translations.

Python strings are modelled as Lean `String` (sequences of Unicode code
points); a possibly-non-string argument is modelled by `PyVal`.
-/

/-- Whitespace characters removed by the string strip operation
(ASCII whitespace, which covers every input the program treats). -/
def pySpace (c : Char) : Bool :=
  c = ' ' || c = '\t' || c = '\n' || c = '\r' || c = '\x0b' || c = '\x0c'

/-- The string strip operation: remove leading and trailing whitespace. -/
def pyStrip (s : String) : String :=
  String.mk (((s.toList.dropWhile pySpace).reverse.dropWhile pySpace).reverse)

/-- Character lowercasing as the source language performs it, restricted to
the ASCII and Latin-1 letters, which are the only characters whose
lowercase forms any marker, keyword or language code of the program uses. -/
def pyLower (c : Char) : Char :=
  if 'A' ≤ c ∧ c ≤ 'Z' then Char.ofNat (c.toNat + 32)
  else if 'À' ≤ c ∧ c ≤ 'Þ' ∧ c ≠ '×' then Char.ofNat (c.toNat + 32)
  else c

/-- String lowercasing (`text.lower()`), character by character. -/
def lower (s : String) : String := String.mk (s.toList.map pyLower)

/-- `p` is a prefix of `s` (the `s.startswith(p)` test). -/
def strStartsWith (s p : String) : Bool := p.toList.isPrefixOf s.toList

/-- `needle` occurs as a contiguous sublist of `haystack`
(the substring containment test `w in txt`). -/
def listInfix (needle : List Char) : List Char → Bool
  | [] => needle.isEmpty
  | c :: t => needle.isPrefixOf (c :: t) || listInfix needle t

/-- Substring containment on strings: `strContains hay n` is `n in hay`. -/
def strContains (hay needle : String) : Bool :=
  listInfix needle.toList hay.toList

/-- Association-list lookup with string keys, modelling `dict.get(k)`. -/
def lookupStr {α : Type} (l : List (String × α)) (k : String) : Option α :=
  (l.find? (fun p => p.1 == k)).map (fun p => p.2)

/-- Association-list lookup with natural-number keys, `dict.get(k)`. -/
def lookupNat {α : Type} (l : List (Nat × α)) (k : Nat) : Option α :=
  (l.find? (fun p => p.1 == k)).map (fun p => p.2)

/-- A value passed to `chat`: either a string or something that is not a
string (the `isinstance(message, str)` distinction). -/
inductive PyVal where
  | str (s : String)
  | nonStr
deriving DecidableEq

/-- Spanish-accented characters of the regex character class in the
heuristic detector. -/
def spanishAccents : List Char := ['ñ', 'á', 'é', 'í', 'ó', 'ú']

/-- French-accented characters of the regex character class in the
heuristic detector. -/
def frenchAccents : List Char :=
  ['à', 'â', 'ç', 'è', 'é', 'ê', 'ë', 'î', 'ï', 'ô', 'û', 'ù', 'ü']

/-- The ordered Spanish marker list of the heuristic detector. -/
def spanish_markers : List String :=
  ["pedido", "orden", "envio", "envío", "dónde", "donde", "hola", "gracias", "por favor"]

/-- The ordered French marker list of the heuristic detector. -/
def french_markers : List String :=
  ["bonjour", "commande", "où", "ou", "merci", "salut"]

/-- The heuristic fallback language detector `_ld_detect`, on string input.
A loop that returns a fixed value at the first matching marker is embedded
with `List.any`. -/
def ld_detect (text : String) : String :=
  if (pyStrip text).toList.isEmpty then "en"
  else
    let txt := lower (pyStrip text)
    if strContains txt "¿" || strContains txt "¡" then "es"
    else if txt.toList.any (fun c => spanishAccents.contains c) then "es"
    else if txt.toList.any (fun c => frenchAccents.contains c) then "fr"
    else if spanish_markers.any (fun w => strContains txt w) then "es"
    else if french_markers.any (fun w => strContains txt w) then "fr"
    else if txt = "hello" || txt = "hi" || txt = "hey" then "en"
    else "en"

/-- `_ld_detect` on a possibly-non-string value: the guard
`not isinstance(text, str) or not text.strip()` returns "en" for
non-string input before any other check. -/
def ld_detectV (v : PyVal) : String :=
  match v with
  | .nonStr => "en"
  | .str s => ld_detect s

/-- The unified `detect` wrapper. Its try/except never fires because the
heuristic detector is total, so it forwards to `_ld_detect`. -/
def detect (text : String) : String := ld_detect text

/-- Classifier oracle: a modelled `self.classifier` pipeline call, which on
a message either raises (`Except.error`) or yields the optional label that
`pred.get("label") if isinstance(pred, dict) else None` extracts. -/
def ClassifierOracle : Type := String → Except Unit (Option String)

/-- The chatbot state: the fields assigned by `__init__` in the
configuration where transformers is unavailable or a classifier is
supplied explicitly. -/
structure Chatbot where
  model_loaded : Bool
  classifier : Option ClassifierOracle
  RESPONSES : List (String × List (String × String))
  LABEL_MAP : List (Nat × String)
  order_keywords : List String
  greeting_keywords : List String

/-- Canned responses for the order_status intent. -/
def orderDict : List (String × String) :=
  [("en", "Your order is on the way and will arrive tomorrow."),
   ("es", "Su pedido está en camino y llegará mañana."),
   ("fr", "Votre commande est en route et arrivera demain.")]

/-- Canned responses for the greeting intent. -/
def greetingDict : List (String × String) :=
  [("en", "Hello! How can I assist you today?"),
   ("es", "¡Hola! ¿Cómo puedo ayudarte hoy?"),
   ("fr", "Bonjour! Comment puis-je vous aider aujourd\x27hui?")]

/-- Canned responses for the fallback intent. -/
def fallbackDict : List (String × String) :=
  [("en", "Sorry, I didn\x27t understand that."),
   ("es", "Lo siento, no entendí eso."),
   ("fr", "Désolé, je n\x27ai pas compris cela.")]

/-- The chatbot as `__init__` constructs it when the transformer model is
not loaded: `model_loaded = False`, `classifier = None`, and the literal
response table, label map and keyword lists of the source. -/
def Chatbot.init : Chatbot where
  model_loaded := false
  classifier := none
  RESPONSES :=
    [("order_status", orderDict), ("greeting", greetingDict), ("fallback", fallbackDict)]
  LABEL_MAP := [(0, "order_status"), (1, "greeting"), (2, "fallback")]
  order_keywords :=
    ["order", "pedido", "orden", "en camino", "where", "dónde", "donde", "où", "envío", "envio"]
  greeting_keywords :=
    ["hello", "hi", "hey", "hola", "bonjour", "buenos", "buenas", "salut"]

/-- The rule-based intent classifier `_rule_based_intent`: greetings are
checked first, then order keywords, else fallback. -/
def ruleIntent (bot : Chatbot) (text : String) : String :=
  let txt := lower text
  if bot.greeting_keywords.any (fun g => strContains txt g) then "greeting"
  else if bot.order_keywords.any (fun o => strContains txt o) then "order_status"
  else "fallback"

/-- The first run of ASCII decimal digits in a character list, modelling
the first match of the one-or-more-digits pattern. -/
def firstDigitRun : List Char → Option (List Char)
  | [] => none
  | c :: t => if c.isDigit then some (c :: t.takeWhile Char.isDigit) else firstDigitRun t

/-- Decimal value of a digit run, modelling `int(...)` on the match. -/
def digitsToNat (l : List Char) : Nat :=
  l.foldl (fun a c => a * 10 + (c.toNat - 48)) 0

/-- First embedded integer of a string, if any. -/
def firstIntInString (s : String) : Option Nat :=
  (firstDigitRun s.toList).map digitsToNat

/-- `_parse_label_to_intent`: a missing label gives fallback; a label with
an embedded integer goes through `LABEL_MAP.get(idx, "fallback")`; else a
substring match on the lower-cased label text. -/
def parse_label_to_intent (bot : Chatbot) (label : Option String) : String :=
  match label with
  | none => "fallback"
  | some l =>
    match firstIntInString l with
    | some idx => (lookupNat bot.LABEL_MAP idx).getD "fallback"
    | none =>
      let ll := lower l
      if strContains ll "greet" || strContains ll "hello" || strContains ll "hi" then
        "greeting"
      else "fallback"

/-- Python truthiness of `x or text` for an optional string `x`:
`None` and the empty string both fall through to `text`. -/
def pyOrStr (x : Option String) (text : String) : String :=
  match x with
  | some s => if s.isEmpty then text else s
  | none => text

/-- `translate_text` in the configuration without deep_translator: an
"en"-prefixed target returns the text unchanged; "es"/"fr" targets return
the fallback intent entry for that language (or the text when that entry
is absent or empty); any other target returns the text unchanged. -/
def translate_text (bot : Chatbot) (text : String) (dest_lang : String) : String :=
  let dest := lower dest_lang
  if strStartsWith dest "en" then text
  else if strStartsWith dest "es" then
    pyOrStr (lookupStr ((lookupStr bot.RESPONSES "fallback").getD []) "es") text
  else if strStartsWith dest "fr" then
    pyOrStr (lookupStr ((lookupStr bot.RESPONSES "fallback").getD []) "fr") text
  else text

/-- The record `chat` returns: exactly the three fields
detected_language, intent and response, each a (non-null) string. -/
structure ChatResult where
  detected_language : String
  intent : String
  response : String
deriving DecidableEq

/-- The intent computed inside `chat`: the classifier runs only when
`model_loaded` and `classifier is not None`; a runtime classifier failure
is caught and the message is re-classified with the rule-based strategy. -/
def intentOf (bot : Chatbot) (m : String) : String :=
  match bot.classifier with
  | some f =>
    if bot.model_loaded then
      match f m with
      | .error _ => ruleIntent bot m
      | .ok label => parse_label_to_intent bot label
    else ruleIntent bot m
  | none => ruleIntent bot m

/-- The response-dictionary choice of `chat`:
`RESPONSES.get(intent, RESPONSES["fallback"])`, given the (eagerly
evaluated) fallback entry `fb`. -/
def respDictOf (bot : Chatbot) (intent : String) (fb : List (String × String)) :
    List (String × String) :=
  (lookupStr bot.RESPONSES intent).getD fb

/-- The reply computation of `chat`: the exact-language entry when
present, else the translated English entry (empty when absent). -/
def replyFor (bot : Chatbot) (intent detected : String)
    (fb : List (String × String)) : String :=
  match lookupStr (respDictOf bot intent fb) detected with
  | some r => r
  | none => translate_text bot ((lookupStr (respDictOf bot intent fb) "en").getD "") detected

/-- The body of `chat` after the type validation. The subscript
`RESPONSES["fallback"]` raises a KeyError when absent, which the model
surfaces as `Except.error`; it is present in every constructed chatbot. -/
def chatStr (bot : Chatbot) (m : String) : Except String ChatResult :=
  match lookupStr bot.RESPONSES "fallback" with
  | none => .error "KeyError: fallback"
  | some fb => .ok ⟨detect m, intentOf bot m, replyFor bot (intentOf bot m) (detect m) fb⟩

/-- `chat`: a non-string message raises ValueError (`Except.error`); a
string message goes through detect, classify and resolve. The method
never assigns to the object, so the state is returned unchanged. -/
def chat (bot : Chatbot) (message : PyVal) : Except String ChatResult × Chatbot :=
  match message with
  | .nonStr => (.error "message must be a string", bot)
  | .str m => (chatStr bot m, bot)

/-- A raised exception, in the `Except` model of the method. -/
def raises {α : Type} (r : Except String α) : Prop := ∃ e, r = .error e

/-- First-match dispatch over an ordered marker list: `hit` at the first
marker contained in `txt`, else `miss`. Used by the spec-modelled
reference procedures, which say "first match wins". -/
def firstMatchLabel (markers : List String) (txt hit miss : String) : String :=
  match markers.find? (fun w => strContains txt w) with
  | some _ => hit
  | none => miss

/-- Modelled from the spec: the ordered Spanish marker list of the
reference heuristic procedure. -/
def specSpanishMarkers : List String :=
  ["pedido", "orden", "envio", "envío", "dónde", "donde", "hola", "gracias", "por favor"]

/-- Modelled from the spec: the ordered French marker list of the
reference heuristic procedure. -/
def specFrenchMarkers : List String :=
  ["bonjour", "commande", "où", "ou", "merci", "salut"]

/-- Modelled from the spec: the seven-step ordered reference procedure for
heuristic language detection over the lower-cased, trimmed input, with
empty input returning "en" immediately. -/
def specHeuristicDetect (text : String) : String :=
  if (pyStrip text).toList.isEmpty then "en"
  else
    let txt := lower (pyStrip text)
    if strContains txt "¿" || strContains txt "¡" then "es"
    else if txt.toList.any (fun c => ['ñ', 'á', 'é', 'í', 'ó', 'ú'].contains c) then "es"
    else if txt.toList.any (fun c =>
        ['à', 'â', 'ç', 'è', 'é', 'ê', 'ë', 'î', 'ï', 'ô', 'û', 'ù', 'ü'].contains c) then "fr"
    else firstMatchLabel specSpanishMarkers txt "es"
      (firstMatchLabel specFrenchMarkers txt "fr"
        (if txt ∈ (["hello", "hi", "hey"] : List String) then "en" else "en"))

/-- Modelled from the spec: the ordered greeting-keyword list of the
reference rule-based classifier. -/
def specGreetingKeywords : List String :=
  ["hello", "hi", "hey", "hola", "bonjour", "buenos", "buenas", "salut"]

/-- Modelled from the spec: the ordered order-keyword list of the
reference rule-based classifier. -/
def specOrderKeywords : List String :=
  ["order", "pedido", "orden", "en camino", "where", "dónde", "donde", "où", "envío", "envio"]

/-- Modelled from the spec: the reference rule-based classifier —
lower-case the text, first match in the greeting list gives "greeting",
else first match in the order list gives "order_status", else "fallback". -/
def specRuleIntent (text : String) : String :=
  firstMatchLabel specGreetingKeywords (lower text) "greeting"
    (firstMatchLabel specOrderKeywords (lower text) "order_status" "fallback")

/-- Modelled from the spec: the built-in translation rule — target
starting "en" returns the text unchanged; "es"/"fr" return the fallback
intent Spanish/French canned text; otherwise the text unchanged. -/
def specTranslate (text dest_lang : String) : String :=
  let dest := lower dest_lang
  if strStartsWith dest "en" then text
  else if strStartsWith dest "es" then "Lo siento, no entendí eso."
  else if strStartsWith dest "fr" then "Désolé, je n\x27ai pas compris cela."
  else text

/-- The closed intent enumeration. -/
def intentEnum : List String := ["order_status", "greeting", "fallback"]

/-- First-match dispatch over a marker list agrees with an any-test:
the value only depends on whether some marker is contained. -/
lemma firstMatchLabel_eq_ite (markers : List String) (txt hit miss : String) :
    firstMatchLabel markers txt hit miss =
      if markers.any (fun w => strContains txt w) then hit else miss := by
  induction markers with
  | nil => rfl
  | cons w ws ih =>
    cases h : strContains txt w with
    | true => simp [firstMatchLabel, List.find?, h]
    | false =>
      simp only [firstMatchLabel, List.find?, h, List.any_cons, Bool.false_or]
      exact ih

/-- The heuristic detector only ever returns "en", "es" or "fr". -/
lemma ld_detect_cases (s : String) :
    ld_detect s = "en" ∨ ld_detect s = "es" ∨ ld_detect s = "fr" := by
  simp only [ld_detect]
  split_ifs <;> simp

/-- The rule-based classifier of the constructed chatbot only ever
returns "greeting", "order_status" or "fallback". -/
lemma ruleIntent_init_cases (s : String) :
    ruleIntent Chatbot.init s = "greeting" ∨ ruleIntent Chatbot.init s = "order_status" ∨
      ruleIntent Chatbot.init s = "fallback" := by
  simp only [ruleIntent]
  split_ifs <;> simp

/-- On the constructed chatbot, `chat`'s string branch always produces the
triple built from the detector, the rule-based classifier and the reply
resolution with the fallback dictionary. -/
lemma chatStr_init_eq (m : String) :
    chatStr Chatbot.init m =
      .ok ⟨detect m, ruleIntent Chatbot.init m,
        replyFor Chatbot.init (ruleIntent Chatbot.init m) (detect m) fallbackDict⟩ := rfl

/-- Claim C1: for every string message, chat returns a record with exactly
the three fields detected_language, intent and response, each a non-null
string, and no step after the type validation raises. -/
theorem chat_returns_complete_result (s : String) :
    ∃ dl it rp, chat Chatbot.init (PyVal.str s) =
      (.ok ⟨dl, it, rp⟩, Chatbot.init) :=
  ⟨_, _, _, rfl⟩

/-- Claim C2: chat raises the invalid-input error exactly on non-string
messages, and in that case produces no partial result and leaves the
chatbot state unchanged. -/
theorem chat_invalid_input_iff (v : PyVal) :
    (raises (chat Chatbot.init v).1 ↔ v = PyVal.nonStr) ∧
      (chat Chatbot.init v).2 = Chatbot.init := by
  cases v with
  | nonStr =>
    exact ⟨⟨fun _ => rfl, fun _ => ⟨"message must be a string", rfl⟩⟩, rfl⟩
  | str s =>
    refine ⟨⟨fun h => ?_, fun h => by cases h⟩, rfl⟩
    obtain ⟨e, he⟩ := h
    replace he : chatStr Chatbot.init s = .error e := he
    rw [chatStr_init_eq] at he
    exact Except.noConfusion he

/-- Claim C3: the intent of every chat result, every rule-based
classification, and every parsed model label lies in the closed
enumeration order_status, greeting, fallback. -/
theorem intent_closed_enum :
    (∀ s, ruleIntent Chatbot.init s ∈ intentEnum) ∧
      (∀ lab, parse_label_to_intent Chatbot.init lab ∈ intentEnum) ∧
      (∀ s r, (chat Chatbot.init (PyVal.str s)).1 = .ok r → r.intent ∈ intentEnum) := by
  have hrule : ∀ s, ruleIntent Chatbot.init s ∈ intentEnum := by
    intro s
    rcases ruleIntent_init_cases s with h | h | h <;> simp [h, intentEnum]
  refine ⟨hrule, fun lab => ?_, fun s r h => ?_⟩
  · match lab with
    | none => simp [parse_label_to_intent, intentEnum]
    | some l =>
      simp only [parse_label_to_intent]
      cases hfi : firstIntInString l with
      | none => split_ifs <;> simp [intentEnum]
      | some idx =>
        by_cases h0 : idx = 0
        · subst h0; simp [lookupNat, List.find?, Chatbot.init, intentEnum]
        · by_cases h1 : idx = 1
          · subst h1; simp [lookupNat, List.find?, Chatbot.init, intentEnum]
          · by_cases h2 : idx = 2
            · subst h2; simp [lookupNat, List.find?, Chatbot.init, intentEnum]
            · have hnone : lookupNat Chatbot.init.LABEL_MAP idx = none := by
                simp [lookupNat, List.find?_eq_none, Chatbot.init, beq_iff_eq]
                exact ⟨fun h => absurd h.symm h0, fun h => absurd h.symm h1,
                  fun h => absurd h.symm h2⟩
              simp [hnone, intentEnum]
  · replace h : chatStr Chatbot.init s = .ok r := h
    rw [chatStr_init_eq] at h
    injection h with h'
    subst h'
    exact hrule s

/-- Claim C3 witness: the chat-intent conjunct applied at the concrete
message "Hello". -/
theorem intent_closed_enum_witness : "greeting" ∈ intentEnum :=
  intent_closed_enum.2.2 "Hello"
    ⟨"en", "greeting", "Hello! How can I assist you today?"⟩ rfl

/-- Claim C4: when langdetect is unavailable, the heuristic detector
equals the seven-step ordered reference procedure on the lower-cased,
trimmed input, and empty or non-string input returns "en" immediately. -/
theorem heuristic_detector_matches_spec :
    (∀ s, ld_detect s = specHeuristicDetect s) ∧
      ld_detectV PyVal.nonStr = "en" ∧
      (∀ s, pyStrip s = "" → ld_detect s = "en") := by
  refine ⟨fun s => ?_, rfl, fun s h => ?_⟩
  · simp only [ld_detect, specHeuristicDetect, firstMatchLabel_eq_ite, ite_self]
    rfl
  · simp [ld_detect, h]

/-- Claim C4 witness: the equality at "Bonjour" and the empty-input rule
at a whitespace-only string. -/
theorem heuristic_detector_matches_spec_witness :
    pyStrip " " = "" ∧ ld_detect " " = "en" ∧
      ld_detect "Bonjour" = specHeuristicDetect "Bonjour" :=
  ⟨rfl, heuristic_detector_matches_spec.2.2 " " rfl,
    heuristic_detector_matches_spec.1 "Bonjour"⟩

/-- Claim C5: the rule-based intent classifier equals the reference
definition from the spec (greeting keywords first, then order keywords,
else fallback). -/
theorem rule_based_matches_spec (s : String) :
    ruleIntent Chatbot.init s = specRuleIntent s := by
  simp only [ruleIntent, specRuleIntent, firstMatchLabel_eq_ite]
  rfl

/-- Claim C6: any text containing (case-insensitively) both a greeting
keyword and an order keyword classifies as "greeting" — greeting keywords
are checked strictly first. -/
theorem greeting_precedence (s : String)
    (hg : ∃ g ∈ Chatbot.init.greeting_keywords, strContains (lower s) g = true)
    (_ho : ∃ o ∈ Chatbot.init.order_keywords, strContains (lower s) o = true) :
    ruleIntent Chatbot.init s = "greeting" := by
  have h : Chatbot.init.greeting_keywords.any (fun g => strContains (lower s) g) = true := by
    rw [List.any_eq_true]
    obtain ⟨g, hmem, hc⟩ := hg
    exact ⟨g, hmem, hc⟩
  simp [ruleIntent, h]

/-- Claim C6 witness: a message with both a greeting and an order
keyword. -/
theorem greeting_precedence_witness :
    ruleIntent Chatbot.init "Hello, where is my order?" = "greeting" :=
  greeting_precedence "Hello, where is my order?" (by decide) (by decide)

/-- Claim C7: without a translation service, translate_text equals the
built-in rule of the spec (target "en"* unchanged, "es"*/"fr"* the
fallback intent's canned text, otherwise unchanged). -/
theorem translate_matches_spec (text dest_lang : String) :
    translate_text Chatbot.init text dest_lang = specTranslate text dest_lang := rfl

/-- Claim C8: the Spanish order-status scenario. -/
theorem chat_spanish_order_scenario :
    (chat Chatbot.init (PyVal.str "¿Dónde está mi pedido?")).1 =
      .ok ⟨"es", "order_status", "Su pedido está en camino y llegará mañana."⟩ := rfl

/-- Claim C9: chat leaves the chatbot state — response table, label map,
keyword lists, model_loaded and classifier — unchanged for every message
and every state. -/
theorem chat_preserves_state (bot : Chatbot) (v : PyVal) :
    (chat bot v).2 = bot ∧
      (chat bot v).2.RESPONSES = bot.RESPONSES ∧
      (chat bot v).2.LABEL_MAP = bot.LABEL_MAP ∧
      (chat bot v).2.order_keywords = bot.order_keywords ∧
      (chat bot v).2.greeting_keywords = bot.greeting_keywords ∧
      (chat bot v).2.model_loaded = bot.model_loaded ∧
      (chat bot v).2.classifier = bot.classifier := by
  cases v <;> exact ⟨rfl, rfl, rfl, rfl, rfl, rfl, rfl⟩

/-- Claim C10: the heuristic detector returns only "en", "es" or "fr",
and consequently every chat response is exactly the canned entry
RESPONSES at the intent and detected language (the exact lookup never
misses, so translation is never invoked from chat). -/
theorem heuristic_codes_and_exact_lookup :
    (∀ s, ld_detect s = "en" ∨ ld_detect s = "es" ∨ ld_detect s = "fr") ∧
      (∀ s r, (chat Chatbot.init (PyVal.str s)).1 = .ok r →
        (lookupStr Chatbot.init.RESPONSES r.intent).bind
          (fun d => lookupStr d r.detected_language) = some r.response) := by
  refine ⟨ld_detect_cases, fun s r h => ?_⟩
  replace h : chatStr Chatbot.init s = .ok r := h
  rw [chatStr_init_eq] at h
  injection h with h'
  subst h'
  have hd := ld_detect_cases s
  replace hd : detect s = "en" ∨ detect s = "es" ∨ detect s = "fr" := hd
  rcases hd with hd | hd | hd <;>
    rcases ruleIntent_init_cases s with hi | hi | hi <;>
      rw [hd, hi] <;> rfl

/-- Claim C10 witness: the exact-lookup conjunct applied at the message
"Hello". -/
theorem heuristic_codes_and_exact_lookup_witness :
    (lookupStr Chatbot.init.RESPONSES "greeting").bind
      (fun d => lookupStr d "en") = some "Hello! How can I assist you today?" :=
  heuristic_codes_and_exact_lookup.2 "Hello"
    ⟨"en", "greeting", "Hello! How can I assist you today?"⟩ rfl
